import Mathlib

/-!
Entangld Datastore engine: verification development.

A shallow embedding of the Entangld C++ Datastore engine
(`src/libraries/unix/src/Datastore.cpp`, `include/Datastore.h`,
`include/Message.h`) and proofs of the specified properties.

The engine manipulates a JSON tree through `nlohmann::json`, an external
dependency whose sources are not part of this repository; the tree
operations (`readPtr`, `assign`, `appendAt`) are therefore modelled from
the specification (§4.2 Local tree).  Handlers and user callbacks are
opaque function pointers in the C++ code; here they are identifiers, and
every call the engine makes through such a pointer is recorded as an
explicit effect (`Eff`).  A C++ exception escaping an operation is
modelled by the operation returning `none`.
-/

namespace Entangld

/-- A JSON value (`nlohmann::json`): null, boolean, number, string,
array, or object.  Object fields are an association list; `num` carries
an integer, sufficient for the properties proved here. -/
inductive J where
  | null
  | boolean (b : Bool)
  | num (n : Int)
  | str (s : String)
  | arr (elems : List J)
  | obj (fields : List (String × J))

/-- A JSON pointer: the list of reference tokens.  The C++ code builds it
from a dotted path by replacing `.` with `/` and prepending `/`, then
letting `nlohmann::json::json_pointer` split on `/`; the net effect is
splitting the dotted path on `.`, with the empty path denoting the root. -/
abbrev Ptr := List String

/-- The string-prefix test of the engine, `s.rfind(pre, 0) != npos` in
the C++ code: `s` begins with `pre` (§4.5: a raw *string* prefix, not a
path-segment prefix). -/
def strBegins (s pre : String) : Bool := pre.data.isPrefixOf s.data

/-- Splitting a character list on `.` into reference tokens. -/
def splitDots : List Char → List String
  | [] => [""]
  | c :: rest =>
      if c = '.' then "" :: splitDots rest
      else
        match splitDots rest with
        | [] => [String.mk [c]]
        | s :: tail => String.mk (c :: s.data) :: tail

/-- The `to_pointer` conversion of the spec / the path-to-pointer conversion in
`Datastore::get` and `Datastore::set`: empty path is the root, otherwise
split on dots. -/
def toPointer (path : String) : Ptr :=
  if path = "" then [] else splitDots path.data

/-- Field lookup in a JSON object (first binding wins). -/
def lookupField : List (String × J) → String → Option J
  | [], _ => none
  | (k, v) :: rest, key => if k = key then some v else lookupField rest key

/-- Replace the binding of `key` (or append a fresh one). -/
def setField : List (String × J) → String → J → List (String × J)
  | [], key, v => [(key, v)]
  | (k, w) :: rest, key, v =>
      if k = key then (k, v) :: rest else (k, w) :: setField rest key v

/-- Write index `i` of an array, padding with nulls when `i` is past the
end. -/
def setIdx (elems : List J) (i : Nat) (v : J) : List J :=
  if i < elems.length then elems.set i v
  else elems ++ List.replicate (i - elems.length) J.null ++ [v]

/-- Modelled from the spec: §4.2 `read(ptr) → Value | null-if-absent`.
Reading an absent path yields `null` and never fails (the tree
implementation, `nlohmann::json`, is an external dependency whose sources
are not in this repository). -/
def readPtr : J → Ptr → J
  | t, [] => t
  | J.obj fields, tok :: rest =>
      match lookupField fields tok with
      | some v => readPtr v rest
      | none => J.null
  | J.arr elems, tok :: rest =>
      match tok.toNat?.bind (fun i => elems[i]?) with
      | some v => readPtr v rest
      | none => J.null
  | _, _ :: _ => J.null

/-- Whether a pointer resolves to a present node of the tree. -/
def hasPath : J → Ptr → Bool
  | _, [] => true
  | J.obj fields, tok :: rest =>
      match lookupField fields tok with
      | some v => hasPath v rest
      | none => false
  | J.arr elems, tok :: rest =>
      match tok.toNat?.bind (fun i => elems[i]?) with
      | some v => hasPath v rest
      | none => false
  | _, _ :: _ => false

/-- Modelled from the spec: §4.2 `assign(ptr, v)`, which "creates missing
intermediate objects" (autovivification); assigning through a scalar is a
tree type error (§7), modelled as `none`. -/
def assign : J → Ptr → J → Option J
  | _, [], v => some v
  | J.obj fields, tok :: rest, v =>
      (assign ((lookupField fields tok).getD J.null) rest v).map
        (fun c => J.obj (setField fields tok c))
  | J.null, tok :: rest, v =>
      (assign J.null rest v).map (fun c => J.obj [(tok, c)])
  | J.arr elems, tok :: rest, v =>
      match tok.toNat? with
      | some i =>
          (assign ((elems[i]?).getD J.null) rest v).map
            (fun c => J.arr (setIdx elems i c))
      | none => none
  | _, _ :: _, _ => none

/-- Modelled from the spec: §4.2 `append(ptr, v)`: "append requires the
target to be an array; on absent target, create an empty array then
push"; appending to a non-array target is a tree type error (§7). -/
def appendAt : J → Ptr → J → Option J
  | J.arr elems, [], v => some (J.arr (elems ++ [v]))
  | J.null, [], v => some (J.arr [v])
  | _, [], _ => none
  | J.obj fields, tok :: rest, v =>
      (appendAt ((lookupField fields tok).getD J.null) rest v).map
        (fun c => J.obj (setField fields tok c))
  | J.null, tok :: rest, v =>
      (appendAt J.null rest v).map (fun c => J.obj [(tok, c)])
  | J.arr elems, tok :: rest, v =>
      match tok.toNat? with
      | some i =>
          (appendAt ((elems[i]?).getD J.null) rest v).map
            (fun c => J.arr (setIdx elems i c))
      | none => none
  | _, _ :: _, _ => none

/-- Extract a string member of a JSON object, defaulting to `""`.  Models
`j.at(key).get<std::string>()` on the well-formed objects the engine
stores (`Datastore.cpp` lines 114, 118, 120, 204, 212, 292, 301, 307). -/
def jGetStr (j : J) (key : String) : String :=
  match j with
  | J.obj fields =>
      match lookupField fields key with
      | some (J.str s) => s
      | _ => ""
  | _ => ""

/-- An `entangld::Message` (`Message.h`): type, path, uuid, value.  The
engine stores JSON objects in `path` for subscription bookkeeping, so
`path` is a JSON value; a fresh `Message` value-initializes `path` and
`value` to JSON null and the strings to `""`. -/
structure Message where
  type : String := ""
  path : J := J.null
  uuid : String := ""
  value : J := J.null

/-- A `remote_t` (`Datastore.h`): namespace name, handler function
pointer (`none` models a null pointer, as produced by value
initialization), and the opaque handler context. -/
structure RemoteRecord where
  name : String := ""
  handler : Option Nat := none
  handlerCtx : Nat := 0

/-- A callback function pointer: either a user-supplied callback
(identified by a number) or one of the two internal lambdas of
`Datastore::receive` (the `value`-reply lambda of the `get` branch and
the event-forwarding lambda of the `subscribe` branch). -/
inductive Cb where
  | user (id : Nat)
  | replyTo
  | forward

/-- A `void *` context: a user context, a pointer `&m_remotes[ns]` into
the remote registry, or null. -/
inductive Ctx where
  | user (id : Nat)
  | remotePtr (ns : String)
  | nil

/-- A `request_t` (`Datastore.h`): originating message, owning remote
(`none` = local), local JSON pointer, callback and its context. -/
structure Request where
  msg : Message := {}
  remote : Option String := none
  ptr : Ptr := []
  callback : Cb := Cb.user 0
  callbackCtx : Ctx := Ctx.nil

/-- The observable actions the engine performs through function
pointers: invoking a callback, calling a remote's handler, calling an
invalid (null or dangling) handler pointer — undefined behavior in the
C++ code — and writing a diagnostic line. -/
inductive Eff where
  | invoke (cb : Cb) (ctx : Ctx) (m : Message)
  | transmit (handler : Nat) (handlerCtx : Nat) (m : Message)
  | ubCall (m : Message)
  | log (s : String)

/-- The state of an `entangld::Datastore`: local tree, remote registry,
request table, subscription registry, and the state of the injected UUID
generator (modelled as a counter; the spec only requires unique
strings). -/
structure Store where
  localData : J := J.obj []
  remotes : List (String × RemoteRecord) := []
  requests : List (String × Request) := []
  subs : List Request := []
  uuidCtr : Nat := 0

/-- Association-list lookup (models map `find` / `at`). -/
def alookup {β : Type} : List (String × β) → String → Option β
  | [], _ => none
  | (k, v) :: rest, key => if k = key then some v else alookup rest key

/-- Map erase by key. -/
def eraseKey {β : Type} (l : List (String × β)) (key : String) : List (String × β) :=
  l.filter (fun kv => kv.1 ≠ key)

/-- Map insert, `std::unordered_map::insert`: inserts only when the key is absent. -/
def insertNew {β : Type} (l : List (String × β)) (key : String) (v : β) :
    List (String × β) :=
  if (alookup l key).isSome then l else l ++ [(key, v)]

/-- Map write, `map[key] = v`: update the binding in place or add it. -/
def mapSet {β : Type} : List (String × β) → String → β → List (String × β)
  | [], key, v => [(key, v)]
  | (k, w) :: rest, key, v =>
      if k = key then (k, v) :: rest else (k, w) :: mapSet rest key v

/-- The expression `&m_remotes[name]`: `operator[]` on `std::unordered_map`
value-initializes a fresh `remote_t` (empty name, null handler) when the
key is absent. -/
def ensureRemote (rs : List (String × RemoteRecord)) (name : String) :
    List (String × RemoteRecord) :=
  if (alookup rs name).isSome then rs
  else rs ++ [(name, { name := "", handler := none, handlerCtx := 0 })]

/-- The resolver `Datastore::parse_namespace`: the first registered remote whose name
followed by `.` is a string prefix of the path, else `""`. -/
def parseNamespace (rs : List (String × RemoteRecord)) (path : String) : String :=
  if path = "" then ""
  else
    match rs.find? (fun r => strBegins path (r.1 ++ ".")) with
    | some r => r.1
    | none => ""

/-- Modelled from the spec: §6 UUID generator, an injected external
producing strings unique within the process (the reference
implementation shells out to `libuuid`, outside the engine). -/
def freshUuid (n : Nat) : String := "uuid-" ++ toString n

/-- The sender `Datastore::transmit`: calls `remote->handler(msg, remote->handler_ctx)`
with no null check; a null or dangling handler pointer is undefined
behavior (`ubCall`). -/
def transmitTo (r : Option RemoteRecord) (m : Message) : Eff :=
  match r with
  | some rec =>
      match rec.handler with
      | some h => Eff.transmit h rec.handlerCtx m
      | none => Eff.ubCall m
  | none => Eff.ubCall m

/-- Run one callback-pointer call.  The two internal lambdas of
`Datastore::receive` transmit through the remote record their context
points at; a user callback is an opaque `invoke` effect. -/
def runCallback (rs : List (String × RemoteRecord)) (cb : Cb) (ctx : Ctx)
    (m : Message) : Eff :=
  match cb, ctx with
  | Cb.replyTo, Ctx.remotePtr ns =>
      transmitTo (alookup rs ns)
        { type := "value", path := m.path, uuid := m.uuid, value := m.value }
  | Cb.forward, Ctx.remotePtr ns => transmitTo (alookup rs ns) m
  | c, cx => Eff.invoke c cx m

/-- The operation `Datastore::get` (`Datastore.cpp` lines 47–87).  Local path: build a
`value` message from the tree and call the callback synchronously.
Remote path: record a pending request keyed by its uuid
(`m_requests.insert`, which does not overwrite) and transmit a `get`
with the namespace stripped. -/
def Store.get (st : Store) (path : String) (cb : Cb) (ctx : Ctx)
    (uuid : String) : Store × List Eff :=
  let ns := parseNamespace st.remotes path
  if ns = "" then
    let u := if uuid = "" then freshUuid st.uuidCtr else uuid
    let st' := if uuid = "" then { st with uuidCtr := st.uuidCtr + 1 } else st
    let msg : Message :=
      { type := "value", path := J.str path, uuid := u,
        value := readPtr st.localData (toPointer path) }
    (st', [runCallback st.remotes cb ctx msg])
  else
    let u := if uuid = "" then freshUuid st.uuidCtr else uuid
    let req : Request :=
      { msg := { type := "get", path := J.str (path.drop (ns.length + 1)),
                 uuid := u },
        remote := some ns, callback := cb, callbackCtx := ctx }
    let st' :=
      { st with
        uuidCtr := if uuid = "" then st.uuidCtr + 1 else st.uuidCtr,
        requests := insertNew st.requests u req }
    (st', [transmitTo (alookup st.remotes ns) req.msg])

/-- The operation `Datastore::set` (`Datastore.cpp` lines 89–136).  Local path: mutate
the tree (assign, or append when `push`), then walk the subscription
registry in order, and for every local subscription whose watched path
is a string prefix of the written path, fire its callback with an
`event` carrying the subscription's path and uuid and the current value
at the subscription's pointer.  Remote path: transmit `set`/`push` with
the namespace stripped; nothing local changes.  A tree type error is a
C++ exception (`none`). -/
def Store.set (st : Store) (path : String) (value : J) (push : Bool) :
    Option (Store × List Eff) :=
  let ns := parseNamespace st.remotes path
  if ns = "" then
    match (if push then appendAt st.localData (toPointer path) value
           else assign st.localData (toPointer path) value) with
    | none => none
    | some d =>
        let st' := { st with localData := d }
        some (st', st'.subs.filterMap (fun sub =>
          if sub.remote.isSome then none
          else if strBegins path (jGetStr sub.msg.path "path") then
            some (runCallback st'.remotes sub.callback sub.callbackCtx
              { type := "event", path := J.str (jGetStr sub.msg.path "path"),
                uuid := jGetStr sub.msg.path "uuid",
                value := readPtr d sub.ptr })
          else none))
  else
    let msg : Message :=
      { type := if push then "push" else "set",
        path := J.str (path.drop (ns.length + 1)), value := value }
    some (st, [transmitTo (alookup st.remotes ns) msg])

/-- The operation `Datastore::subscribe` (`Datastore.cpp` lines 138–181).  Generates a
uuid when none is given and appends a subscription record whose
`msg.path` is the JSON object with members `path` and `uuid` (note:
`msg.uuid` itself is left value-initialized, i.e. `""`); remote
subscriptions also transmit the `subscribe` message. -/
def Store.subscribe (st : Store) (path : String) (cb : Cb) (ctx : Ctx)
    (uuid : String) : Store × List Eff :=
  let u := if uuid = "" then freshUuid st.uuidCtr else uuid
  let ctr := if uuid = "" then st.uuidCtr + 1 else st.uuidCtr
  let ns := parseNamespace st.remotes path
  if ns = "" then
    let sub : Request :=
      { msg := { type := "subscribe",
                 path := J.obj [("path", J.str path), ("uuid", J.str u)] },
        remote := none, ptr := toPointer path, callback := cb,
        callbackCtx := ctx }
    ({ st with uuidCtr := ctr, subs := st.subs ++ [sub] }, [])
  else
    let rest := path.drop (ns.length + 1)
    let sub : Request :=
      { msg := { type := "subscribe",
                 path := J.obj [("path", J.str rest), ("uuid", J.str u)] },
        remote := some ns, callback := cb, callbackCtx := ctx }
    ({ st with uuidCtr := ctr, subs := st.subs ++ [sub] },
     [transmitTo (alookup st.remotes ns) sub.msg])

/-- One step of the `remove_if` lambda of `Datastore::unsubscribe`
(`Datastore.cpp` lines 188–227), threading the kept records, the `count`
captured by reference, and any transmits performed for matching remote
subscriptions.  Mirrors the C++ control flow exactly: a non-empty `uuid`
argument is compared against `sub.msg.uuid` (the field, not the uuid
stored inside `sub.msg.path`), and the uuid-with-empty-path branch
removes without incrementing `count`. -/
def unsubStep (rs : List (String × RemoteRecord)) (path uuid ns : String)
    (acc : List Request × Nat × List Eff) (sub : Request) :
    List Request × Nat × List Eff :=
  let kept := acc.1
  let count := acc.2.1
  let effs := acc.2.2
  if uuid ≠ "" ∧ uuid ≠ sub.msg.uuid then (kept ++ [sub], count, effs)
  else if uuid ≠ "" ∧ path = "" then (kept, count, effs)
  else if ns = "" then
    if strBegins path (jGetStr sub.msg.path "path") then
      (kept, count + 1, effs)
    else (kept ++ [sub], count, effs)
  else
    if sub.remote.isSome &&
        strBegins path (ns ++ "." ++ jGetStr sub.msg.path "path") then
      (kept, count + 1,
       effs ++ [transmitTo (alookup rs (sub.remote.getD ""))
         { type := "unsubscribe", uuid := sub.msg.uuid, path := sub.msg.path }])
    else (kept ++ [sub], count, effs)

/-- The operation `Datastore::unsubscribe` (`Datastore.cpp` lines 183–230): erase the
matching records (order of the kept ones preserved, as with
`std::remove_if`) and return the `count` the lambda accumulated. -/
def Store.unsubscribe (st : Store) (path : String) (uuid : String) :
    Store × Nat × List Eff :=
  let ns := parseNamespace st.remotes path
  let r := st.subs.foldl (unsubStep st.remotes path uuid ns) ([], 0, [])
  ({ st with subs := r.1 }, r.2.1, r.2.2)

/-- The operation `Datastore::attach`: store the record under its name. -/
def Store.attach (st : Store) (name : String) (handler : Nat) (hctx : Nat) :
    Store :=
  let rec0 : RemoteRecord :=
    { name := name, handler := some handler, handlerCtx := hctx }
  { st with remotes := mapSet st.remotes name rec0 }

/-- The operation `Datastore::detach`: `m_remotes.erase(name)`. -/
def Store.detach (st : Store) (name : String) : Store :=
  { st with remotes := eraseKey st.remotes name }

/-- The dispatcher `Datastore::receive` (`Datastore.cpp` lines 250–320): the protocol
state machine over `msg.type`.  The `get` and `subscribe` branches first
evaluate `&m_remotes[name]`, default-inserting a record with a null
handler when `name` is not attached.  A message whose `type` is none of
the seven protocol types falls through every branch.  `none` models a
C++ exception escaping (a type error from the tree, or a json access on
a path member of the wrong shape). -/
def Store.receive (st : Store) (msg : Message) (name : String) :
    Option (Store × List Eff) :=
  if msg.type = "set" then
    match msg.path with
    | J.str p => st.set p msg.value false
    | _ => none
  else if msg.type = "push" then
    match msg.path with
    | J.str p => st.set p msg.value true
    | _ => none
  else if msg.type = "get" then
    match msg.path with
    | J.str p =>
        let st1 := { st with remotes := ensureRemote st.remotes name }
        some (st1.get p Cb.replyTo (Ctx.remotePtr name) msg.uuid)
    | _ => none
  else if msg.type = "value" then
    match alookup st.requests msg.uuid with
    | some req =>
        some ({ st with requests := eraseKey st.requests msg.uuid },
              [runCallback st.remotes req.callback req.callbackCtx msg])
    | none => some (st, [Eff.log "Could not find mapped request"])
  else if msg.type = "event" then
    match msg.path with
    | J.str msgPath =>
        some (st, st.subs.filterMap (fun sub =>
          match sub.remote with
          | some rns =>
              match alookup st.remotes rns with
              | some rec =>
                  if rec.name == name &&
                      strBegins msgPath (jGetStr sub.msg.path "path") then
                    some (runCallback st.remotes sub.callback sub.callbackCtx msg)
                  else none
              | none => none
          | none => none))
    | _ => none
  else if msg.type = "subscribe" then
    let st1 := { st with remotes := ensureRemote st.remotes name }
    some (st1.subscribe (jGetStr msg.path "path") Cb.forward
      (Ctx.remotePtr name) (jGetStr msg.path "uuid"))
  else if msg.type = "unsubscribe" then
    match msg.path with
    | J.str p =>
        let r := st.unsubscribe p msg.uuid
        some (r.1, r.2.2)
    | J.obj fields =>
        let p := jGetStr (J.obj fields) "path"
        let u := jGetStr (J.obj fields) "uuid"
        let r := st.unsubscribe p u
        some (r.1, r.2.2)
    | _ => none
  else
    some (st, [])

/-! Library facts used by the proofs. -/

/-- Writing a field makes it readable: `setField` then `lookupField`. -/
theorem lookupField_setField (fields : List (String × J)) (key : String) (v : J) :
    lookupField (setField fields key v) key = some v := by
  induction fields with
  | nil => simp [setField, lookupField]
  | cons kv rest ih =>
      by_cases h : kv.1 = key
      · simp [setField, lookupField, h]
      · simpa [setField, lookupField, h] using ih

/-- Writing an index makes it readable: `setIdx` then indexing. -/
theorem get_setIdx (elems : List J) (i : Nat) (v : J) :
    (setIdx elems i v)[i]? = some v := by
  unfold setIdx
  by_cases h : i < elems.length
  · rw [if_pos h]
    rw [List.getElem?_set_self']
    rw [List.getElem?_eq_getElem h]
    rfl
  · rw [if_neg h, List.append_assoc]
    rw [List.getElem?_append_right (Nat.le_of_not_lt h)]
    rw [List.getElem?_append_right (by simp [List.length_replicate])]
    simp [List.length_replicate]

/-- Reading anything below a null node yields null. -/
theorem readPtr_null (q : Ptr) : readPtr J.null q = J.null := by
  cases q <;> simp [readPtr]

/-- Reading the path just assigned yields the assigned value
(read-over-write agreement for the spec's tree, §4.2). -/
theorem readPtr_assign (p : Ptr) : ∀ (t t' v : J),
    assign t p v = some t' → readPtr t' p = v := by
  induction p with
  | nil =>
      intro t t' v h
      simp [assign] at h
      simp [readPtr, h]
  | cons tok rest ih =>
      intro t t' v h
      cases t with
      | null =>
          simp only [assign, Option.map_eq_some'] at h
          obtain ⟨c, hc, rfl⟩ := h
          simp [readPtr, lookupField, ih _ _ _ hc]
      | obj fields =>
          simp only [assign, Option.map_eq_some'] at h
          obtain ⟨c, hc, rfl⟩ := h
          simp [readPtr, lookupField_setField, ih _ _ _ hc]
      | arr elems =>
          simp only [assign] at h
          cases hi : tok.toNat? with
          | none => rw [hi] at h; exact absurd h (by simp)
          | some i =>
              rw [hi] at h
              simp only [Option.map_eq_some'] at h
              obtain ⟨c, hc, rfl⟩ := h
              simp only [readPtr, hi, Option.some_bind, get_setIdx]
              exact ih _ _ _ hc
      | boolean b => exact absurd h (by simp [assign])
      | num n => exact absurd h (by simp [assign])
      | str s => exact absurd h (by simp [assign])

/-- Reading along a concatenated pointer is reading in two hops. -/
theorem readPtr_append (p : Ptr) : ∀ (q : Ptr) (t : J),
    readPtr t (p ++ q) = readPtr (readPtr t p) q := by
  induction p with
  | nil => intro q t; simp [readPtr]
  | cons tok rest ih =>
      intro q t
      cases t with
      | null => simp [readPtr, readPtr_null]
      | boolean b => simp [readPtr, readPtr_null]
      | num n => simp [readPtr, readPtr_null]
      | str s => simp [readPtr, readPtr_null]
      | obj fields =>
          simp only [List.cons_append, readPtr]
          cases lookupField fields tok with
          | some v => exact ih q v
          | none => simp [readPtr_null]
      | arr elems =>
          simp only [List.cons_append, readPtr]
          cases tok.toNat?.bind (fun i => elems[i]?) with
          | some v => exact ih q v
          | none => simp [readPtr_null]

/-- An absent path reads as null (§4.2: "read on an absent path returns
null (never fails)"). -/
theorem readPtr_of_hasPath_false (p : Ptr) : ∀ (t : J),
    hasPath t p = false → readPtr t p = J.null := by
  induction p with
  | nil => intro t h; simp [hasPath] at h
  | cons tok rest ih =>
      intro t h
      cases t with
      | null => simp [readPtr]
      | boolean b => simp [readPtr]
      | num n => simp [readPtr]
      | str s => simp [readPtr]
      | obj fields =>
          simp only [hasPath] at h
          simp only [readPtr]
          cases hl : lookupField fields tok with
          | some v => rw [hl] at h; exact ih v h
          | none => simp
      | arr elems =>
          simp only [hasPath] at h
          simp only [readPtr]
          cases hv : tok.toNat?.bind (fun i => elems[i]?) with
          | some v => rw [hv] at h; exact ih v h
          | none => simp

/-- A key erased from a map is gone. -/
theorem alookup_eraseKey {β : Type} (l : List (String × β)) (key : String) :
    alookup (eraseKey l key) key = none := by
  induction l with
  | nil => rfl
  | cons kv rest ih =>
      by_cases h : kv.1 = key
      · simpa [eraseKey, h] using ih
      · simpa [eraseKey, alookup, h] using ih

/-- Looking up a key just appended to a map that lacked it. -/
theorem alookup_append_single {β : Type} (l : List (String × β)) (key : String)
    (v : β) (h : alookup l key = none) :
    alookup (l ++ [(key, v)]) key = some v := by
  induction l with
  | nil => simp [alookup]
  | cons kv rest ih =>
      obtain ⟨k1, v1⟩ := kv
      by_cases hk : k1 = key
      · simp [alookup, hk] at h
      · rw [List.cons_append]
        simp only [alookup, hk, if_false] at h ⊢
        exact ih h

/-- Dropping a string prepended to another recovers it. -/
theorem string_drop_append (s t : String) : (s ++ t).drop s.length = t := by
  apply String.ext
  rw [String.data_drop, String.data_append]
  exact List.drop_left _ _

/-- A string begins with any string it extends. -/
theorem strBegins_append (s t : String) : strBegins (s ++ t) s = true := by
  rw [strBegins, String.data_append]
  exact List.isPrefixOf_iff_prefix.mpr (List.prefix_append _ _)

/-- A string with a non-empty left part is non-empty. -/
theorem append_ne_empty (s t : String) (hs : s.length ≠ 0) : s ++ t ≠ "" := by
  intro h
  have h2 := congrArg String.length h
  rw [String.length_append] at h2
  have h0 : String.length "" = 0 := rfl
  omega

/-- Generated UUID strings are never empty; the engine's `uuid.empty()`
tests therefore fail on them. -/
theorem freshUuid_ne_empty (n : Nat) : freshUuid n ≠ "" := by
  intro h
  have h2 := congrArg String.length h
  rw [freshUuid, String.length_append] at h2
  have h5 : "uuid-".length = 5 := rfl
  have h0 : String.length "" = 0 := rfl
  omega

/-- Stripping a namespace from a namespaced path (`path.substr(ns.size()+1)`
in `Datastore::get`/`set`/`subscribe`). -/
theorem drop_namespace (ns rest : String) :
    (ns ++ "." ++ rest).drop (ns.length + 1) = rest := by
  have h1 : (ns ++ ".").length = ns.length + 1 := by
    rw [String.length_append]
    rfl
  have h2 := string_drop_append (ns ++ ".") rest
  rwa [h1] at h2

/-- The empty store freshly constructed by `Datastore()`. -/
def store0 : Store :=
  { localData := J.obj [], remotes := [], requests := [], subs := [],
    uuidCtr := 0 }

/-- Evaluation of `Datastore::set` on a local path: the tree is replaced
by the assigned one and the fan-out walks the registry in order. -/
theorem set_local_eq (st : Store) (p : String) (v t' : J)
    (hns : parseNamespace st.remotes p = "")
    (hset : assign st.localData (toPointer p) v = some t') :
    st.set p v false = some ({ st with localData := t' },
      st.subs.filterMap (fun sub =>
        if sub.remote.isSome then none
        else if strBegins p (jGetStr sub.msg.path "path") then
          some (runCallback st.remotes sub.callback sub.callbackCtx
            { type := "event", path := J.str (jGetStr sub.msg.path "path"),
              uuid := jGetStr sub.msg.path "uuid",
              value := readPtr t' sub.ptr })
        else none)) := by
  simp [Store.set, hns, hset]

/-- Evaluation of `Datastore::get` on a local path. -/
theorem get_local_eq (st : Store) (p u : String) (cb : Cb) (ctx : Ctx)
    (hns : parseNamespace st.remotes p = "") :
    st.get p cb ctx u =
      ((if u = "" then { st with uuidCtr := st.uuidCtr + 1 } else st),
       [runCallback st.remotes cb ctx
         { type := "value", path := J.str p,
           uuid := if u = "" then freshUuid st.uuidCtr else u,
           value := readPtr st.localData (toPointer p) }]) := by
  simp [Store.get, hns]

/-- C5: for every local path `p` (no attached remote's name prefixes
`p`), `get(p, cb, ctx, u)` invokes `cb` synchronously exactly once
before returning, with a message of type `value`, path `p`, uuid `u`
when `u` is non-empty and a freshly generated uuid otherwise, and value
equal to the tree's content at `p`'s JSON pointer; when nothing is
stored at `p` the value is null and `get` never throws (the operation
is total). -/
theorem get_local_sync (st : Store) (p u : String) (i j : Nat)
    (hns : parseNamespace st.remotes p = "") :
    st.get p (Cb.user i) (Ctx.user j) u =
      ((if u = "" then { st with uuidCtr := st.uuidCtr + 1 } else st),
       [Eff.invoke (Cb.user i) (Ctx.user j)
         { type := "value", path := J.str p,
           uuid := if u = "" then freshUuid st.uuidCtr else u,
           value := readPtr st.localData (toPointer p) }]) ∧
    (hasPath st.localData (toPointer p) = false →
      readPtr st.localData (toPointer p) = J.null) := by
  constructor
  · rw [get_local_eq st p u (Cb.user i) (Ctx.user j) hns]
    rfl
  · intro h
    exact readPtr_of_hasPath_false _ _ h

/-- A one-key store used by concrete check cases. -/
def storeKV : Store :=
  { localData := J.obj [("key", J.str "value")], remotes := [],
    requests := [], subs := [], uuidCtr := 0 }

/-- Witness for C5: the store holding `key: value` answers a `get` for
the absent path `badkey` with a null-valued `value` message. -/
theorem get_local_sync_w :
    parseNamespace storeKV.remotes "badkey" = "" ∧
    (storeKV.get "badkey" (Cb.user 1) (Ctx.user 2) "u" =
      (storeKV,
       [Eff.invoke (Cb.user 1) (Ctx.user 2)
         { type := "value", path := J.str "badkey", uuid := "u",
           value := J.null }]) ∧
     (hasPath storeKV.localData (toPointer "badkey") = false →
       readPtr storeKV.localData (toPointer "badkey") = J.null)) :=
  ⟨rfl, get_local_sync storeKV "badkey" "u" 1 2 rfl⟩

/-- C9: for every remote path `ns + "." + rest` with `ns` attached,
`set` leaves the local tree, the subscription registry and the request
table unchanged (the state is returned as-is), invokes no local
subscription callback, and its only effect is handing the single message
`set`/`push` with path `rest` and the value to the remote's handler. -/
theorem set_remote_frame (st : Store) (ns rest : String) (v : J) (push : Bool)
    (rec : RemoteRecord) (hdl : Nat)
    (hns : parseNamespace st.remotes (ns ++ "." ++ rest) = ns)
    (hne : ns ≠ "")
    (hrec : alookup st.remotes ns = some rec)
    (hh : rec.handler = some hdl) :
    st.set (ns ++ "." ++ rest) v push =
      some (st, [Eff.transmit hdl rec.handlerCtx
        { type := if push then "push" else "set", path := J.str rest,
          uuid := "", value := v }]) := by
  simp [Store.set, hns, hne, drop_namespace, transmitTo, hrec, hh]

/-- The remote record for namespace `B` used by concrete check cases. -/
def recB : RemoteRecord := { name := "B", handler := some 10, handlerCtx := 3 }

/-- A store with remote `B` attached, used by concrete check cases. -/
def storeWithB : Store :=
  { localData := J.obj [], remotes := [("B", recB)], requests := [],
    subs := [], uuidCtr := 0 }

/-- Witness for C9: with remote `B` attached, `set("B.x", 5)` only
transmits `set x 5` to `B`'s handler and changes nothing locally. -/
theorem set_remote_frame_w :
    parseNamespace storeWithB.remotes ("B" ++ "." ++ "x") = "B" ∧
    ("B" : String) ≠ "" ∧
    alookup storeWithB.remotes "B" = some recB ∧
    recB.handler = some 10 ∧
    storeWithB.set ("B" ++ "." ++ "x") (J.num 5) false =
      some (storeWithB,
        [Eff.transmit 10 recB.handlerCtx
          { type := "set", path := J.str "x", uuid := "", value := J.num 5 }]) :=
  ⟨rfl, by decide, rfl, rfl,
   set_remote_frame storeWithB "B" "x" (J.num 5) false recB 10 rfl (by decide)
     rfl rfl⟩

/-- C10: a message whose type is none of the seven protocol types makes
`receive` a no-op: the state is returned unchanged and no callback,
handler or log is produced. -/
theorem receive_unknown_noop (st : Store) (m : Message) (name : String)
    (h1 : m.type ≠ "set") (h2 : m.type ≠ "push") (h3 : m.type ≠ "get")
    (h4 : m.type ≠ "value") (h5 : m.type ≠ "event") (h6 : m.type ≠ "subscribe")
    (h7 : m.type ≠ "unsubscribe") :
    st.receive m name = some (st, []) := by
  simp [Store.receive, h1, h2, h3, h4, h5, h6, h7]

/-- Witness for C10: a `bogus`-typed message is ignored. -/
theorem receive_unknown_noop_w :
    ("bogus" : String) ≠ "set" ∧ ("bogus" : String) ≠ "push" ∧
    ("bogus" : String) ≠ "get" ∧ ("bogus" : String) ≠ "value" ∧
    ("bogus" : String) ≠ "event" ∧ ("bogus" : String) ≠ "subscribe" ∧
    ("bogus" : String) ≠ "unsubscribe" ∧
    store0.receive { type := "bogus", path := J.str "k", uuid := "u" } "B" =
      some (store0, []) :=
  ⟨by decide, by decide, by decide, by decide, by decide, by decide, by decide,
   receive_unknown_noop store0 _ "B" (by decide) (by decide) (by decide)
     (by decide) (by decide) (by decide) (by decide)⟩

/-- The guarded `filterMap` of the fan-out loop in `Datastore::set` is a
filter (local subscriptions whose watched path string-prefixes the
written path) followed by building one event per match. -/
theorem fanout_filterMap (rs : List (String × RemoteRecord)) (p : String)
    (d : J) (subs : List Request) :
    subs.filterMap (fun sub =>
      if sub.remote.isSome then none
      else if strBegins p (jGetStr sub.msg.path "path") then
        some (runCallback rs sub.callback sub.callbackCtx
          { type := "event", path := J.str (jGetStr sub.msg.path "path"),
            uuid := jGetStr sub.msg.path "uuid", value := readPtr d sub.ptr })
      else none) =
    (subs.filter (fun sub => sub.remote.isNone &&
        strBegins p (jGetStr sub.msg.path "path"))).map
      (fun sub => runCallback rs sub.callback sub.callbackCtx
        { type := "event", path := J.str (jGetStr sub.msg.path "path"),
          uuid := jGetStr sub.msg.path "uuid", value := readPtr d sub.ptr }) := by
  induction subs with
  | nil => rfl
  | cons a l ih =>
      cases ha : a.remote with
      | some r => simp [List.filterMap_cons, List.filter_cons, ha, ih]
      | none =>
          cases hp : strBegins p (jGetStr a.msg.path "path") <;>
            simp [List.filterMap_cons, List.filter_cons, ha, hp, ih]

/-- C2: a local `set(p, v)` mutates the tree and then fires exactly the
local subscription records whose watched path is a raw string prefix of
`p`, in registry (insertion) order, each with an `event` message
carrying the subscription's path and uuid and the current tree value at
the subscribed prefix's pointer (not the written sub-path's value). -/
theorem set_local_fanout (st : Store) (p : String) (v t' : J)
    (hns : parseNamespace st.remotes p = "")
    (hset : assign st.localData (toPointer p) v = some t') :
    st.set p v false =
      some ({ st with localData := t' },
        (st.subs.filter (fun sub => sub.remote.isNone &&
            strBegins p (jGetStr sub.msg.path "path"))).map
          (fun sub => runCallback st.remotes sub.callback sub.callbackCtx
            { type := "event", path := J.str (jGetStr sub.msg.path "path"),
              uuid := jGetStr sub.msg.path "uuid",
              value := readPtr t' sub.ptr })) := by
  rw [set_local_eq st p v t' hns hset, fanout_filterMap]

/-- A store with a local subscription at `a` (uuid `s1`) then one at
`zzz` (uuid `s2`), used by concrete check cases. -/
def storeTwoSubs : Store :=
  ((store0.subscribe "a" (Cb.user 1) (Ctx.user 0) "s1").1.subscribe
    "zzz" (Cb.user 2) (Ctx.user 0) "s2").1

/-- Witness for C2: writing `aardvark` fires the subscription watching
`a` (raw string prefix) and not the one watching `zzz`, with the event
reading the (absent, hence null) value at pointer `/a`. -/
theorem set_local_fanout_w :
    parseNamespace storeTwoSubs.remotes "aardvark" = "" ∧
    assign storeTwoSubs.localData (toPointer "aardvark") (J.num 5) =
      some (J.obj [("aardvark", J.num 5)]) ∧
    storeTwoSubs.set "aardvark" (J.num 5) false =
      some ({ storeTwoSubs with localData := J.obj [("aardvark", J.num 5)] },
        (storeTwoSubs.subs.filter (fun sub => sub.remote.isNone &&
            strBegins "aardvark" (jGetStr sub.msg.path "path"))).map
          (fun sub => runCallback storeTwoSubs.remotes sub.callback
            sub.callbackCtx
            { type := "event", path := J.str (jGetStr sub.msg.path "path"),
              uuid := jGetStr sub.msg.path "uuid",
              value := readPtr (J.obj [("aardvark", J.num 5)]) sub.ptr })) :=
  ⟨rfl, rfl,
   set_local_fanout storeTwoSubs "aardvark" (J.num 5)
     (J.obj [("aardvark", J.num 5)]) rfl rfl⟩

/-- C1: after a successful local `set(p, v)` (no attached remote's name
prefixes `p`; intermediate objects are autovivified by `assign`), a
`get(p, cb)` invokes `cb` with a `value` message whose value is
structurally equal to `v`, and a `get` on the parent path `q` (where
`p`'s pointer splits as `q`'s followed by `r`'s) yields a structure
containing `v` at the relative sub-path `r`. -/
theorem set_then_get_roundtrip (st : Store) (p q r : String) (v t' : J)
    (u u' : String) (i j k l : Nat)
    (hns : parseNamespace st.remotes p = "")
    (hq : parseNamespace st.remotes q = "")
    (hsplit : toPointer p = toPointer q ++ toPointer r)
    (hset : assign st.localData (toPointer p) v = some t') :
    (∃ effs, st.set p v false = some ({ st with localData := t' }, effs)) ∧
    (({ st with localData := t' } : Store).get p (Cb.user i) (Ctx.user j) u).2 =
      [Eff.invoke (Cb.user i) (Ctx.user j)
        { type := "value", path := J.str p,
          uuid := if u = "" then freshUuid st.uuidCtr else u, value := v }] ∧
    (({ st with localData := t' } : Store).get q (Cb.user k) (Ctx.user l) u').2 =
      [Eff.invoke (Cb.user k) (Ctx.user l)
        { type := "value", path := J.str q,
          uuid := if u' = "" then freshUuid st.uuidCtr else u',
          value := readPtr t' (toPointer q) }] ∧
    readPtr (readPtr t' (toPointer q)) (toPointer r) = v := by
  have hv : readPtr t' (toPointer p) = v :=
    readPtr_assign (toPointer p) st.localData t' v hset
  refine ⟨⟨_, set_local_eq st p v t' hns hset⟩, ?_, ?_, ?_⟩
  · rw [get_local_eq { st with localData := t' } p u (Cb.user i) (Ctx.user j) hns]
    simp [runCallback, hv]
  · rw [get_local_eq { st with localData := t' } q u' (Cb.user k) (Ctx.user l) hq]
    simp [runCallback]
  · rw [← readPtr_append, ← hsplit]
    exact hv

/-- Witness for C1: on the empty store, `set("root.key", "value")`
autovivifies `root`, `get("root.key")` returns `"value"` and
`get("root")` returns an object holding `"value"` under `key`. -/
theorem set_then_get_roundtrip_w :
    parseNamespace store0.remotes "root.key" = "" ∧
    parseNamespace store0.remotes "root" = "" ∧
    toPointer "root.key" = toPointer "root" ++ toPointer "key" ∧
    assign store0.localData (toPointer "root.key") (J.str "value") =
      some (J.obj [("root", J.obj [("key", J.str "value")])]) ∧
    ((∃ effs, store0.set "root.key" (J.str "value") false =
        some ({ store0 with
          localData := J.obj [("root", J.obj [("key", J.str "value")])] },
          effs)) ∧
     (({ store0 with
          localData := J.obj [("root", J.obj [("key", J.str "value")])] }
        : Store).get "root.key" (Cb.user 1) (Ctx.user 2) "u").2 =
       [Eff.invoke (Cb.user 1) (Ctx.user 2)
         { type := "value", path := J.str "root.key",
           uuid := if "u" = "" then freshUuid store0.uuidCtr else "u",
           value := J.str "value" }] ∧
     (({ store0 with
          localData := J.obj [("root", J.obj [("key", J.str "value")])] }
        : Store).get "root" (Cb.user 3) (Ctx.user 4) "w").2 =
       [Eff.invoke (Cb.user 3) (Ctx.user 4)
         { type := "value", path := J.str "root",
           uuid := if "w" = "" then freshUuid store0.uuidCtr else "w",
           value := readPtr (J.obj [("root", J.obj [("key", J.str "value")])])
             (toPointer "root") }] ∧
     readPtr (readPtr (J.obj [("root", J.obj [("key", J.str "value")])])
       (toPointer "root")) (toPointer "key") = J.str "value") :=
  ⟨rfl, rfl, rfl, rfl,
   set_then_get_roundtrip store0 "root.key" "root" "key" (J.str "value")
     (J.obj [("root", J.obj [("key", J.str "value")])]) "u" "w" 1 2 3 4
     rfl rfl rfl rfl⟩

/-- A store with one local subscription at path `a` registered under
uuid `u1`, used by concrete check cases. -/
def storeSubA : Store := (store0.subscribe "a" (Cb.user 1) (Ctx.user 0) "u1").1

/-- C4 (counterexample evaluation): `subscribe` stores the subscription
uuid only inside `msg.path` (`msg.uuid` stays `""`), while `unsubscribe`
compares the supplied uuid against `msg.uuid`; hence a targeted
`unsubscribe("a", "u1")` skips the record whose subscription uuid is
`u1` and returns 0, although the untargeted `unsubscribe("a", "")`
removes that very record and returns 1. -/
theorem unsubscribe_uuid_compare_bug :
    storeSubA.subs.map (fun sub => jGetStr sub.msg.path "uuid") = ["u1"] ∧
    storeSubA.subs.map (fun sub => sub.msg.uuid) = [""] ∧
    storeSubA.unsubscribe "a" "u1" = (storeSubA, 0, []) ∧
    storeSubA.unsubscribe "a" "" = ({ storeSubA with subs := [] }, 1, []) :=
  ⟨rfl, rfl, rfl, rfl⟩

/-- C8 (counterexample evaluation): `receive` of a `get` from a
namespace that was never attached default-inserts a remote record with a
null handler into the registry and then calls that null handler
(undefined behavior) when transmitting the reply; nothing is logged and
the transmit is not skipped. -/
theorem receive_get_unattached_ub :
    store0.receive { type := "get", path := J.str "k", uuid := "u" } "ghost" =
      some ({ store0 with remotes :=
          [("ghost", { name := "", handler := none, handlerCtx := 0 })] },
        [Eff.ubCall { type := "value", path := J.str "k", uuid := "u",
                      value := J.null }]) :=
  rfl

/-- Evaluation of `Datastore::receive` on a `get` message from an
attached namespace: it re-enters `get` with the reply lambda and a
pointer to the sender's record. -/
theorem receive_get_eq (st : Store) (p uuid name : String)
    (hname : (alookup st.remotes name).isSome = true) :
    st.receive { type := "get", path := J.str p, uuid := uuid } name =
      some (st.get p Cb.replyTo (Ctx.remotePtr name) uuid) := by
  simp [Store.receive, ensureRemote, hname]

/-- Evaluation of `Datastore::receive` on a `value` message whose uuid
is pending: the callback runs and the entry is erased. -/
theorem receive_value_found (st : Store) (m : Message) (name : String)
    (hm : m.type = "value") (req : Request)
    (hr : alookup st.requests m.uuid = some req) :
    st.receive m name =
      some ({ st with requests := eraseKey st.requests m.uuid },
        [runCallback st.remotes req.callback req.callbackCtx m]) := by
  simp [Store.receive, hm, hr]

/-- C3: a `value` message whose uuid has a pending request invokes that
request's callback exactly once (the effect list is that single call)
and erases the request-table entry, so a second identical `value`
message finds no entry and is only logged; a `value` message with an
unknown uuid is logged and dropped with the state unchanged, and
`receive` does not throw (it returns a value in every case). -/
theorem receive_value_once (st : Store) (name : String) (m : Message)
    (hm : m.type = "value") :
    (∀ req, alookup st.requests m.uuid = some req →
      st.receive m name =
        some ({ st with requests := eraseKey st.requests m.uuid },
          [runCallback st.remotes req.callback req.callbackCtx m]) ∧
      (∀ i, req.callback = Cb.user i →
        runCallback st.remotes req.callback req.callbackCtx m =
          Eff.invoke (Cb.user i) req.callbackCtx m) ∧
      alookup (eraseKey st.requests m.uuid) m.uuid = none ∧
      ({ st with requests := eraseKey st.requests m.uuid } : Store).receive m
          name =
        some ({ st with requests := eraseKey st.requests m.uuid },
          [Eff.log "Could not find mapped request"])) ∧
    (alookup st.requests m.uuid = none →
      st.receive m name = some (st, [Eff.log "Could not find mapped request"]))
    := by
  constructor
  · intro req hr
    refine ⟨?_, ?_, ?_, ?_⟩
    · simp [Store.receive, hm, hr]
    · intro i hi
      cases hc : req.callbackCtx <;> simp [runCallback, hi, hc]
    · exact alookup_eraseKey _ _
    · simp [Store.receive, hm, alookup_eraseKey]
  · intro hn
    simp [Store.receive, hm, hn]

/-- A store with one pending request under uuid `u9`, used by concrete
check cases. -/
def storeReq : Store :=
  { localData := J.obj [], remotes := [],
    requests := [("u9",
      { msg := { type := "get", path := J.str "x", uuid := "u9" },
        remote := some "B", ptr := [],
        callback := Cb.user 3, callbackCtx := Ctx.user 4 })],
    subs := [], uuidCtr := 0 }

/-- Witness for C3: the pending request under `u9` is answered once and
consumed; the duplicate reply only logs. -/
theorem receive_value_once_w :
    (({ type := "value", path := J.str "x", uuid := "u9",
        value := J.num 1 } : Message).type = "value") ∧
    alookup storeReq.requests "u9" =
      some { msg := { type := "get", path := J.str "x", uuid := "u9" },
             remote := some "B", ptr := [],
             callback := Cb.user 3, callbackCtx := Ctx.user 4 } ∧
    (storeReq.receive
        { type := "value", path := J.str "x", uuid := "u9", value := J.num 1 }
        "B" =
      some ({ storeReq with requests := eraseKey storeReq.requests "u9" },
        [runCallback storeReq.remotes (Cb.user 3) (Ctx.user 4)
          { type := "value", path := J.str "x", uuid := "u9",
            value := J.num 1 }]) ∧
     (∀ i, (Cb.user 3 : Cb) = Cb.user i →
       runCallback storeReq.remotes (Cb.user 3) (Ctx.user 4)
           { type := "value", path := J.str "x", uuid := "u9",
             value := J.num 1 } =
         Eff.invoke (Cb.user i) (Ctx.user 4)
           { type := "value", path := J.str "x", uuid := "u9",
             value := J.num 1 }) ∧
     alookup (eraseKey storeReq.requests "u9") "u9" = none ∧
     ({ storeReq with requests := eraseKey storeReq.requests "u9" }
        : Store).receive
         { type := "value", path := J.str "x", uuid := "u9",
           value := J.num 1 } "B" =
       some ({ storeReq with requests := eraseKey storeReq.requests "u9" },
         [Eff.log "Could not find mapped request"])) :=
  ⟨rfl, rfl,
   (receive_value_once storeReq "B"
     { type := "value", path := J.str "x", uuid := "u9", value := J.num 1 }
     rfl).1
     { msg := { type := "get", path := J.str "x", uuid := "u9" },
       remote := some "B", ptr := [],
       callback := Cb.user 3, callbackCtx := Ctx.user 4 }
     rfl⟩

/-- C6: a `get` on a remote path `ns + "." + rest` with `ns` attached
builds the outbound message `get rest` under the supplied uuid (or a
fresh one), inserts the pending request keyed by that uuid into the
request table, hands exactly that message to the remote's handler, and
returns without invoking the callback; the table afterwards maps the
uuid to the new entry holding that callback and context. -/
theorem get_remote_request (st : Store) (ns rest u : String) (i j hdl : Nat)
    (rec : RemoteRecord)
    (hns : parseNamespace st.remotes (ns ++ "." ++ rest) = ns)
    (hne : ns ≠ "")
    (hrec : alookup st.remotes ns = some rec)
    (hh : rec.handler = some hdl)
    (hfresh :
      alookup st.requests (if u = "" then freshUuid st.uuidCtr else u) = none) :
    st.get (ns ++ "." ++ rest) (Cb.user i) (Ctx.user j) u =
      ({ st with
          uuidCtr := if u = "" then st.uuidCtr + 1 else st.uuidCtr,
          requests := st.requests ++
            [(if u = "" then freshUuid st.uuidCtr else u,
              { msg := { type := "get", path := J.str rest,
                         uuid := if u = "" then freshUuid st.uuidCtr else u },
                remote := some ns, ptr := [],
                callback := Cb.user i, callbackCtx := Ctx.user j })] },
       [Eff.transmit hdl rec.handlerCtx
         { type := "get", path := J.str rest,
           uuid := if u = "" then freshUuid st.uuidCtr else u }]) ∧
    alookup (st.requests ++
        [(if u = "" then freshUuid st.uuidCtr else u,
          { msg := { type := "get", path := J.str rest,
                     uuid := if u = "" then freshUuid st.uuidCtr else u },
            remote := some ns, ptr := [],
            callback := Cb.user i, callbackCtx := Ctx.user j })])
      (if u = "" then freshUuid st.uuidCtr else u) =
      some { msg := { type := "get", path := J.str rest,
                      uuid := if u = "" then freshUuid st.uuidCtr else u },
             remote := some ns, ptr := [],
             callback := Cb.user i, callbackCtx := Ctx.user j } := by
  constructor
  · simp [Store.get, hns, hne, drop_namespace, transmitTo, hrec, hh,
      insertNew, hfresh]
  · exact alookup_append_single _ _ _ hfresh

/-- The effective uuid of the concrete remote `get` check case. -/
def uuid6 : String :=
  if ("r1" : String) = "" then freshUuid storeWithB.uuidCtr else "r1"

/-- The pending request filed by the concrete remote `get` check case. -/
def req6 : Request :=
  { msg := { type := "get", path := J.str "x", uuid := uuid6 },
    remote := some "B", ptr := [],
    callback := Cb.user 1, callbackCtx := Ctx.user 2 }

/-- Witness for C6: with remote `B` attached, `get("B.x", cb, ctx, "r1")`
transmits `get x` under uuid `r1` and files the pending request. -/
theorem get_remote_request_w :
    parseNamespace storeWithB.remotes ("B" ++ "." ++ "x") = "B" ∧
    ("B" : String) ≠ "" ∧
    alookup storeWithB.remotes "B" = some recB ∧
    recB.handler = some 10 ∧
    alookup storeWithB.requests uuid6 = none ∧
    (storeWithB.get ("B" ++ "." ++ "x") (Cb.user 1) (Ctx.user 2) "r1" =
      ({ storeWithB with
          uuidCtr := if ("r1" : String) = "" then storeWithB.uuidCtr + 1
            else storeWithB.uuidCtr,
          requests := storeWithB.requests ++ [(uuid6, req6)] },
       [Eff.transmit 10 recB.handlerCtx
         { type := "get", path := J.str "x", uuid := uuid6 }]) ∧
     alookup (storeWithB.requests ++ [(uuid6, req6)]) uuid6 = some req6) :=
  ⟨rfl, by decide, rfl, rfl, rfl,
   get_remote_request storeWithB "B" "x" "r1" 1 2 10 recB rfl (by decide)
     rfl rfl rfl⟩

/-- A store attached to a peer under namespace `B` (`attach("B", h, c)`),
with arbitrary tree, tables and uuid counter. -/
def mkStoreA (tA : J) (hB cB : Nat) (rqA : List (String × Request))
    (sbA : List Request) (nA : Nat) : Store :=
  { localData := tA,
    remotes := [("B", { name := "B", handler := some hB, handlerCtx := cB })],
    requests := rqA, subs := sbA, uuidCtr := nA }

/-- A store attached to a peer under namespace `A` (`attach("A", h, c)`),
with arbitrary tree, tables and uuid counter. -/
def mkStoreB (tB : J) (hA cA : Nat) (rqB : List (String × Request))
    (sbB : List Request) (nB : Nat) : Store :=
  { localData := tB,
    remotes := [("A", { name := "A", handler := some hA, handlerCtx := cA })],
    requests := rqB, subs := sbB, uuidCtr := nB }

/-- The state of the `B`-attached store after its remote `get` under the
fresh uuid has been filed. -/
def mkStoreA' (tA : J) (hB cB : Nat) (rqA : List (String × Request))
    (sbA : List Request) (nA : Nat) (i j : Nat) (x : String) : Store :=
  { localData := tA,
    remotes := [("B", { name := "B", handler := some hB, handlerCtx := cB })],
    requests := rqA ++ [(freshUuid nA,
      { msg := { type := "get", path := J.str x, uuid := freshUuid nA },
        remote := some "B", ptr := [],
        callback := Cb.user i, callbackCtx := Ctx.user j })],
    subs := sbA, uuidCtr := nA + 1 }

/-- C7: for mutually attached stores (delivery modeled by handing each
transmitted message to the peer's `receive`), `A.get("B." + x, cb)`
transmits a `get x` to `B`; `B.receive` of it answers with a `value`
message under the same uuid carrying what `B` reads locally at `x`; and
`A.receive` of that reply invokes `cb` with exactly that value. -/
theorem remote_get_roundtrip (tA tB : J) (x : String)
    (hA hB cA cB i j nA nB : Nat)
    (rqA rqB : List (String × Request)) (sbA sbB : List Request)
    (hx : parseNamespace
      [("A", { name := "A", handler := some hA, handlerCtx := cA })] x = "")
    (hfresh : alookup rqA (freshUuid nA) = none) :
    (mkStoreA tA hB cB rqA sbA nA).get ("B." ++ x) (Cb.user i) (Ctx.user j)
        "" =
      (mkStoreA' tA hB cB rqA sbA nA i j x,
       [Eff.transmit hB cB
         { type := "get", path := J.str x, uuid := freshUuid nA }]) ∧
    (mkStoreB tB hA cA rqB sbB nB).receive
        { type := "get", path := J.str x, uuid := freshUuid nA } "A" =
      some (mkStoreB tB hA cA rqB sbB nB,
        [Eff.transmit hA cA
          { type := "value", path := J.str x, uuid := freshUuid nA,
            value := readPtr tB (toPointer x) }]) ∧
    (∃ A2, (mkStoreA' tA hB cB rqA sbA nA i j x).receive
        { type := "value", path := J.str x, uuid := freshUuid nA,
          value := readPtr tB (toPointer x) } "B" =
      some (A2,
        [Eff.invoke (Cb.user i) (Ctx.user j)
          { type := "value", path := J.str x, uuid := freshUuid nA,
            value := readPtr tB (toPointer x) }])) := by
  have hp : parseNamespace (mkStoreA tA hB cB rqA sbA nA).remotes ("B." ++ x)
      = "B" := by
    unfold mkStoreA parseNamespace
    rw [if_neg (append_ne_empty "B." x (by decide))]
    have hb : strBegins ("B." ++ x) "B." = true := strBegins_append "B." x
    simp [List.find?, hb]
  have hd : ("B." ++ x).drop (("B" : String).length + 1) = x := by
    have h2 : ("B" : String).length + 1 = ("B." : String).length := rfl
    rw [h2]
    exact string_drop_append "B." x
  refine ⟨?_, ?_, ?_⟩
  · simp only [Store.get, hp]
    rw [if_neg (by decide : ¬ ("B" : String) = "")]
    simp [hd, insertNew, hfresh, transmitTo, alookup, mkStoreA, mkStoreA']
  · rw [receive_get_eq (mkStoreB tB hA cA rqB sbB nB) x (freshUuid nA) "A"
      (by simp [mkStoreB, alookup])]
    rw [get_local_eq (mkStoreB tB hA cA rqB sbB nB) x (freshUuid nA)
      Cb.replyTo (Ctx.remotePtr "A") hx]
    simp [freshUuid_ne_empty nA, runCallback, transmitTo, alookup, mkStoreB]
  · refine ⟨{ mkStoreA' tA hB cB rqA sbA nA i j x with
      requests := eraseKey (mkStoreA' tA hB cB rqA sbA nA i j x).requests
        (freshUuid nA) }, ?_⟩
    have hl : alookup (mkStoreA' tA hB cB rqA sbA nA i j x).requests
        (freshUuid nA) =
        some { msg := { type := "get", path := J.str x, uuid := freshUuid nA },
               remote := some "B", ptr := [],
               callback := Cb.user i, callbackCtx := Ctx.user j } := by
      unfold mkStoreA'
      exact alookup_append_single _ _ _ hfresh
    rw [receive_value_found (mkStoreA' tA hB cB rqA sbA nA i j x) _ "B" rfl _
      hl]
    simp [runCallback]

/-- Witness for C7: with `B` holding `x: Bruce`, the full round trip of
`A.get("B.x")` delivers `Bruce` to the user callback under one uuid. -/
theorem remote_get_roundtrip_w :
    parseNamespace
      [("A", { name := "A", handler := some 20, handlerCtx := 7 })] "x" = "" ∧
    alookup ([] : List (String × Request)) (freshUuid 0) = none ∧
    ((mkStoreA (J.obj []) 10 9 [] [] 0).get ("B." ++ "x") (Cb.user 1)
        (Ctx.user 2) "" =
      (mkStoreA' (J.obj []) 10 9 [] [] 0 1 2 "x",
       [Eff.transmit 10 9
         { type := "get", path := J.str "x", uuid := freshUuid 0 }]) ∧
     (mkStoreB (J.obj [("x", J.str "Bruce")]) 20 7 [] [] 0).receive
        { type := "get", path := J.str "x", uuid := freshUuid 0 } "A" =
      some (mkStoreB (J.obj [("x", J.str "Bruce")]) 20 7 [] [] 0,
        [Eff.transmit 20 7
          { type := "value", path := J.str "x", uuid := freshUuid 0,
            value := readPtr (J.obj [("x", J.str "Bruce")])
              (toPointer "x") }]) ∧
     (∃ A2, (mkStoreA' (J.obj []) 10 9 [] [] 0 1 2 "x").receive
        { type := "value", path := J.str "x", uuid := freshUuid 0,
          value := readPtr (J.obj [("x", J.str "Bruce")]) (toPointer "x") }
        "B" =
      some (A2,
        [Eff.invoke (Cb.user 1) (Ctx.user 2)
          { type := "value", path := J.str "x", uuid := freshUuid 0,
            value := readPtr (J.obj [("x", J.str "Bruce")])
              (toPointer "x") }]))) :=
  ⟨rfl, rfl,
   remote_get_roundtrip (J.obj []) (J.obj [("x", J.str "Bruce")]) "x"
     20 10 7 9 1 2 0 0 [] [] [] [] rfl rfl⟩

end Entangld
